import Mathlib

/-!
# Verification of the MAAS DHCP Lease Manager

A shallow embedding of `src/maas_dhcp_manager.py` (class `MAASLeaseManager`).
Python dictionaries are modelled as association lists in insertion order;
Python string values are Lean `String`s, with Python truthiness of a string
being "nonempty" and an optional string argument being `Option String`
(falsy when `none` or `some ""`).  Network effects are modelled by returning
the list of HTTP requests an invocation issues, with the remote responses
supplied as explicit oracle arguments.
-/

namespace MaasDhcp

/-- Python truthiness of an optional string argument (`None` and `""` are falsy). -/
def pyFalsy : Option String → Bool
  | none => true
  | some s => s == ""

/-- Python dict.get with a default, on an association list (first binding
wins, as keys of a real Python dict are unique). -/
def itemGetD (item : List (String × String)) (k dflt : String) : String :=
  match item.find? (fun p => p.1 == k) with
  | some p => p.2
  | none => dflt

/-- Python dict.get without a default, on an association list: `none` when
the key is absent. -/
def itemGet? (item : List (String × String)) (k : String) : Option String :=
  (item.find? (fun p => p.1 == k)).map (fun p => p.2)

/-- Python dict assignment on an association list: an existing key keeps its
position and has its value replaced, a new key is appended. -/
def dictSet (d : List (String × String)) (k v : String) : List (String × String) :=
  if d.any (fun p => p.1 == k) then
    d.map (fun p => if p.1 == k then (k, v) else p)
  else
    d ++ [(k, v)]

/-- Python str.rstrip with a slash argument: drop every trailing slash. -/
def rstripSlash (s : String) : String :=
  String.mk ((s.toList.reverse.dropWhile (fun c => c == '/')).reverse)

/-- Helper for `splitOnChar`: walks the character list, cutting at each
separator; the accumulator holds the current segment reversed. -/
def splitOnCharAux (sep : Char) : List Char → List Char → List String
  | [], acc => [String.mk acc.reverse]
  | c :: cs, acc =>
    if c == sep then String.mk acc.reverse :: splitOnCharAux sep cs []
    else splitOnCharAux sep cs (c :: acc)

/-- Python str.split with a single-character separator: always returns at
least one segment (the empty string splits to one empty segment), one more
segment per separator occurrence. -/
def splitOnChar (s : String) (sep : Char) : List String :=
  splitOnCharAux sep s.toList []

/-- The hardcoded placeholder URL constant `MAAS_URL` at the top of the script. -/
def MAAS_URL : String := "http://maas.example.com:5240"

/-- The hardcoded placeholder key constant `MAAS_API_KEY` at the top of the script. -/
def MAAS_API_KEY : String := "YOUR_API_KEY_HERE"

/-- Embeds the URL line of `__init__` (maas_url or MAAS_URL).  The command-line
flag (if truthy) wins, otherwise the hardcoded constant is used; no
environment variable and no config file is consulted anywhere in the script. -/
def resolve_maas_url (flag : Option String) : String :=
  match flag with
  | some s => if s == "" then MAAS_URL else s
  | none => MAAS_URL

/-- Embeds the key line of `__init__` (api_key or MAAS_API_KEY). -/
def resolve_api_key (flag : Option String) : String :=
  match flag with
  | some s => if s == "" then MAAS_API_KEY else s
  | none => MAAS_API_KEY

/-- Modelled from the spec: the documented credential-resolution priority
chain "command-line flags > environment variables > local config file >
built-in placeholder default", each source skipped when unset/falsy.
The source code has no environment/config lookup, so the chain of the spec is
modelled here for comparison with `resolve_maas_url`. -/
def resolve_spec_chain (flag env cfg : Option String) (dflt : String) : String :=
  if !pyFalsy flag then flag.getD dflt
  else if !pyFalsy env then env.getD dflt
  else if !pyFalsy cfg then cfg.getD dflt
  else dflt

/-- The credential state of a `MAASLeaseManager` instance after `__init__`. -/
structure Manager where
  maas_url : String
  api_key : String
deriving Repr, DecidableEq

/-- An HTTP request issued by `_maas_api_call`, identified by method and URL. -/
structure HttpRequest where
  meth : String
  url : String
deriving Repr, DecidableEq

/-- The OAuth PLAINTEXT parameter list built in `_get_headers` from the three
key parts, the timestamp and the nonce. -/
def oauth_params (consumer_key token secret ts nonce : String) :
    List (String × String) :=
  [("oauth_consumer_key", consumer_key),
   ("oauth_token", token),
   ("oauth_signature_method", "PLAINTEXT"),
   ("oauth_signature", "&" ++ secret),
   ("oauth_timestamp", ts),
   ("oauth_nonce", nonce),
   ("oauth_version", "1.0")]

/-- The Authorization header value built in `_get_headers`: the literal
"OAuth " followed by the comma-joined key="value" parameter pairs. -/
def auth_header (consumer_key token secret ts nonce : String) : String :=
  "OAuth " ++ String.intercalate ", "
    ((oauth_params consumer_key token secret ts nonce).map
      (fun p => p.1 ++ "=\"" ++ p.2 ++ "\""))

/-- Embeds `_get_headers`: splits the API key on colons; with anything other than
exactly three parts it prints an error and returns the empty dict `{}`;
otherwise it returns the Authorization/Accept headers.  The timestamp and
nonce (time- and randomness-dependent in Python) are explicit arguments. -/
def get_headers (api_key ts nonce : String) : List (String × String) :=
  let parts := splitOnChar api_key ':'
  if parts.length ≠ 3 then []
  else
    let consumer_key := parts.getD 0 ""
    let token := parts.getD 1 ""
    let secret := parts.getD 2 ""
    [("Authorization", auth_header consumer_key token secret ts nonce),
     ("Accept", "application/json")]

/-- The listing endpoint used by every operation. -/
def snippetsEndpoint : String := "/MAAS/api/2.0/dhcp-snippets/"

/-- The requests issued by one `_maas_api_call` invocation.  The call
returns `None` without any request when URL or key is falsy; otherwise it
computes headers via `_get_headers` (whose validation result it ignores)
and issues exactly one request for a supported method.  An unsupported
method issues no request. -/
def maas_api_call_trace (m : Manager) (endpoint method : String) :
    List HttpRequest :=
  if m.maas_url == "" || m.api_key == "" then []
  else if method == "GET" || method == "POST" || method == "PUT" || method == "DELETE" then
    [⟨method, rstripSlash m.maas_url ++ endpoint⟩]
  else []

/-- The GET request for the full lease collection. -/
def listingGet (m : Manager) : HttpRequest :=
  ⟨"GET", rstripSlash m.maas_url ++ snippetsEndpoint⟩

/-- The projection of one raw API item into the lease-record shape
(`list_leases` loop body): five fixed fields, then every response field
whose key is not one of ip, mac, hostname, lease_time_seconds is
copied into the record (`lease[key] = value`). -/
def projectLease (item : List (String × String)) : List (String × String) :=
  let base :=
    [("lease_name", itemGetD item "lease_name" (itemGetD item "hostname" "N/A")),
     ("ip_address", itemGetD item "ip" "N/A"),
     ("mac_address", itemGetD item "mac" "N/A"),
     ("hostname", itemGetD item "hostname" "N/A"),
     ("lease_time", itemGetD item "lease_time_seconds" "N/A")]
  item.foldl
    (fun acc kv =>
      if kv.1 == "ip" || kv.1 == "mac" || kv.1 == "hostname" || kv.1 == "lease_time_seconds" then acc
      else dictSet acc kv.1 kv.2)
    base

/-- Embeds `list_leases`: fetches the collection (the oracle `fetchResp` is the
decoded response, `none` for a non-success status or transport error) and
returns the projected lease list together with the issued requests.  The
output format only affects printing, never the returned list. -/
def list_leases (m : Manager) (fetchResp : Option (List (List (String × String))))
    (fmt : String) : List (List (String × String)) × List HttpRequest :=
  let _ := fmt
  if m.maas_url == "" || m.api_key == "" then ([], [])
  else
    match fetchResp with
    | none => ([], [listingGet m])
    | some items => (items.map projectLease, [listingGet m])

/-- The first lease in the fetched collection matching the identifier:
kind `ip` matches on exact equality of the `ip` field (an absent field
never matches, since dict.get yields None there), kind `mac` matches
case-insensitively on the `mac` field with an empty-string default. -/
def lease_matches (identifier idType : String) (item : List (String × String)) : Bool :=
  if idType == "ip" then itemGet? item "ip" == some identifier
  else if idType == "mac" then (itemGetD item "mac" "").toLower == identifier.toLower
  else false

/-- The result of `delete_lease`: success flag, issued requests, and the
"Lease not found for ..." diagnostic when printed. -/
structure DeleteResult where
  ok : Bool
  trace : List HttpRequest
  notFoundMsg : Option String
deriving Repr, DecidableEq

/-- Embeds `delete_lease`: fetches the collection, linearly scans for the first
matching record and takes its `id` (the loop breaks at the first match, so
a first match without a truthy `id` also yields "not found"), then issues a
DELETE against that id.  `fetchResp` and `deleteResp` are the oracle
responses of the two calls (`none` = the call failed or was skipped for
falsy credentials). -/
def delete_lease (m : Manager) (identifier idType : String)
    (fetchResp : Option (List (List (String × String))))
    (deleteResp : Option Unit) : DeleteResult :=
  if m.maas_url == "" || m.api_key == "" then ⟨false, [], none⟩
  else
    match fetchResp with
    | none => ⟨false, [listingGet m], none⟩
    | some items =>
      let lease_id :=
        (items.find? (lease_matches identifier idType)).bind
          (fun item => itemGet? item "id")
      match lease_id with
      | none => ⟨false, [listingGet m], some ("Lease not found for " ++ identifier)⟩
      | some lid =>
        if lid == "" then
          ⟨false, [listingGet m], some ("Lease not found for " ++ identifier)⟩
        else
          let delReq : HttpRequest :=
            ⟨"DELETE", rstripSlash m.maas_url ++ snippetsEndpoint ++ lid ++ "/"⟩
          ⟨deleteResp.isSome, [listingGet m, delReq], none⟩

/-- Embeds `append_lease`: rejects a falsy ip or mac locally, otherwise issues a
single POST to the collection endpoint.  Success requires the decoded
response to be truthy (`if result:`), so `postResp = some b` is a
successful HTTP status whose decoded body has truthiness `b`, and `none`
is a failed call. -/
def append_lease (m : Manager) (ip mac hostname : Option String)
    (postResp : Option Bool) : Bool × List HttpRequest :=
  let _ := hostname
  if pyFalsy ip || pyFalsy mac then (false, [])
  else if m.maas_url == "" || m.api_key == "" then (false, [])
  else (postResp == some true, [⟨"POST", rstripSlash m.maas_url ++ snippetsEndpoint⟩])

/-- The lease-configuration fragment built by `update_lease`. -/
def lease_string (hostname mac ip : String) : String :=
  "host " ++ hostname ++ " \x7b hardware ethernet " ++ mac ++
    "; fixed-address " ++ ip ++ "; \x7d"

/-- Embeds `update_lease`: issues a single PUT against the named snippet, with no
preceding fetch.  Success only requires the call not to fail
(`if update_result is not None:`), regardless of body truthiness. -/
def update_lease (m : Manager) (snippet_name ip mac hostname : String)
    (putResp : Option Bool) : Bool × List HttpRequest :=
  let _ := lease_string hostname mac ip
  if m.maas_url == "" || m.api_key == "" then (false, [])
  else (putResp.isSome,
    [⟨"PUT", rstripSlash m.maas_url ++ snippetsEndpoint ++ snippet_name ++ "/"⟩])

/-- A CSV data row as produced by `csv.DictReader` for a well-formed row:
every header column is bound to a string field value. -/
abbrev CsvRow := List (String × String)

/-- Whitespace as recognised by Python str.strip. -/
def isSpaceChar (c : Char) : Bool :=
  c == ' ' || c == '\t' || c == '\n' || c == '\r' || c == '\x0b' || c == '\x0c'

/-- Python str.strip with no argument: removes leading and trailing
whitespace. -/
def pyStrip (s : String) : String :=
  String.mk (((s.toList.dropWhile isSpaceChar).reverse.dropWhile isSpaceChar).reverse)

/-- Reads one column of a row with an empty default and strips it, as the
per-row loops do. -/
def rowField (row : CsvRow) (col : String) : String :=
  pyStrip (itemGetD row col "")

/-- Result of one batch (`*_from_csv`) invocation: return value, success
and failure counts, issued requests, and the final "Completed: ..."
summary line (absent when the file or a required column is missing). -/
structure BatchResult where
  ok : Bool
  successCount : Nat
  failCount : Nat
  trace : List HttpRequest
  summary : Option String
deriving Repr, DecidableEq

/-- The per-row loop of `append_from_csv`.  Each row is paired with the
oracle response its POST would receive.  A row with falsy (stripped) ip or
mac is skipped and counted as failed; otherwise hostname and lease_name
default to each other and `append_lease` decides success. -/
def processAppendRows (m : Manager) :
    List (CsvRow × Option Bool) → Nat × Nat × List HttpRequest
  | [] => (0, 0, [])
  | (row, resp) :: rest =>
    let ip := rowField row "ip"
    let mac := rowField row "mac"
    let hostname : Option String :=
      if rowField row "hostname" == "" then none else some (rowField row "hostname")
    let lease_name : Option String :=
      if rowField row "lease_name" == "" then none else some (rowField row "lease_name")
    let (s, f, tr) := processAppendRows m rest
    if ip == "" || mac == "" then (s, f + 1, tr)
    else
      let hostname := if hostname.isNone && lease_name.isSome then lease_name else hostname
      let (ok, reqs) := append_lease m (some ip) (some mac) hostname resp
      if ok then (s + 1, f, reqs ++ tr) else (s, f + 1, reqs ++ tr)

/-- Embeds `append_from_csv`: checks the file exists, checks the header contains
`ip` and `mac`, then runs the per-row loop and returns
`success_count > 0` with the aggregate summary line. -/
def append_from_csv (m : Manager) (fileExists : Bool) (fieldnames : List String)
    (rows : List (CsvRow × Option Bool)) : BatchResult :=
  if !fileExists then ⟨false, 0, 0, [], none⟩
  else if !(["ip", "mac"].all (fun c => fieldnames.contains c)) then
    ⟨false, 0, 0, [], none⟩
  else
    let (s, f, tr) := processAppendRows m rows
    ⟨s > 0, s, f, tr,
      some ("\nCompleted: " ++ toString s ++ " leases added, " ++ toString f ++ " failed")⟩

/-- The per-row loop of `update_from_csv`: a row with falsy lease_name, ip
or mac is skipped and counted as failed; hostname defaults to lease_name;
`update_lease` decides success. -/
def processUpdateRows (m : Manager) :
    List (CsvRow × Option Bool) → Nat × Nat × List HttpRequest
  | [] => (0, 0, [])
  | (row, resp) :: rest =>
    let lease_name := rowField row "lease_name"
    let ip := rowField row "ip"
    let mac := rowField row "mac"
    let hostname := rowField row "hostname"
    let (s, f, tr) := processUpdateRows m rest
    if lease_name == "" || ip == "" || mac == "" then (s, f + 1, tr)
    else
      let hostname := if hostname == "" then lease_name else hostname
      let (ok, reqs) := update_lease m lease_name ip mac hostname resp
      if ok then (s + 1, f, reqs ++ tr) else (s, f + 1, reqs ++ tr)

/-- Embeds `update_from_csv`: checks the file exists, checks the header contains
`lease_name`, `ip` and `mac`, then runs the per-row loop and returns
`success_count > 0` with the aggregate summary line. -/
def update_from_csv (m : Manager) (fileExists : Bool) (fieldnames : List String)
    (rows : List (CsvRow × Option Bool)) : BatchResult :=
  if !fileExists then ⟨false, 0, 0, [], none⟩
  else if !(["lease_name", "ip", "mac"].all (fun c => fieldnames.contains c)) then
    ⟨false, 0, 0, [], none⟩
  else
    let (s, f, tr) := processUpdateRows m rows
    ⟨s > 0, s, f, tr,
      some ("\nCompleted: " ++ toString s ++ " snippets updated, " ++ toString f ++ " failed")⟩

/-! ## Theorems settling the claims -/

/-- C1 (counterexample): with the malformed one-part key "ab" (and a
configured URL), header construction fails locally and returns the empty
header dict, yet `_maas_api_call` still issues the GET request to the
listing endpoint — so a malformed key does not prevent the HTTP request,
contrary to the claim. -/
theorem C1_counterexample :
    get_headers "ab" "1700000000" "nonce0" = [] ∧
    maas_api_call_trace ⟨"http://maas.local:5240", "ab"⟩ snippetsEndpoint "GET" =
      [⟨"GET", "http://maas.local:5240/MAAS/api/2.0/dhcp-snippets/"⟩] := by
  constructor
  · rfl
  · rfl

/-- C1 (amended): for every API key that does not consist of exactly three
colon-separated parts, `_get_headers` fails validation locally and returns
the empty header dict; but `_maas_api_call` ignores that result, and as
long as the key and URL are nonempty it still issues the HTTP request
(carrying the empty headers) to the remote API. -/
theorem C1_malformed_key_fails_locally_but_request_still_issued
    (key ts nonce url ep : String)
    (hparts : (splitOnChar key ':').length ≠ 3)
    (hkey : key ≠ "") (hurl : url ≠ "") :
    get_headers key ts nonce = [] ∧
    maas_api_call_trace ⟨url, key⟩ ep "GET" = [⟨"GET", rstripSlash url ++ ep⟩] := by
  constructor
  · simp [get_headers, hparts]
  · simp [maas_api_call_trace, hkey, hurl]

/-- C1 (witness): the amended statement instantiated at the malformed key
"ab" with a configured URL. -/
theorem C1_witness :
    ((splitOnChar "ab" ':').length ≠ 3) ∧
    (get_headers "ab" "1" "n" = [] ∧
      maas_api_call_trace ⟨"http://x", "ab"⟩ snippetsEndpoint "GET" =
        [⟨"GET", rstripSlash "http://x" ++ snippetsEndpoint⟩]) :=
  ⟨by decide,
    C1_malformed_key_fails_locally_but_request_still_issued "ab" "1" "n" "http://x"
      snippetsEndpoint (by decide) (by decide) (by decide)⟩

/-- C2 (counterexample): a reserve (`append_lease`) invocation with
configured credentials and both ip and mac issues exactly one POST — a
mutating request with no preceding full-listing GET in the same
invocation, contrary to the claim. -/
theorem C2_counterexample :
    (append_lease ⟨"http://maas.local:5240", "a:b:c"⟩ (some "10.0.0.5")
        (some "aa:bb:cc:dd:ee:ff") (some "node1") (some true)).2 =
      [⟨"POST", "http://maas.local:5240/MAAS/api/2.0/dhcp-snippets/"⟩] ∧
    (append_lease ⟨"http://maas.local:5240", "a:b:c"⟩ (some "10.0.0.5")
        (some "aa:bb:cc:dd:ee:ff") (some "node1") (some true)).2.all
      (fun r => r.meth != "GET") = true := by
  constructor
  · rfl
  · rfl

/-- C2 (amended): only release (`delete_lease`) precedes its mutation with
a full listing fetch — its request trace is empty or begins with the
listing GET; reserve (`append_lease`) and update (`update_lease`) issue
only their single mutating request (POST resp. PUT) with no listing fetch
at all. -/
theorem C2_only_release_is_preceded_by_listing_fetch
    (m : Manager) (identifier idType : String)
    (fetchResp : Option (List (List (String × String)))) (dresp : Option Unit)
    (ip mac hostname : Option String) (presp : Option Bool)
    (name ip2 mac2 host2 : String) (uresp : Option Bool) :
    ((delete_lease m identifier idType fetchResp dresp).trace = [] ∨
      (delete_lease m identifier idType fetchResp dresp).trace.head? =
        some (listingGet m)) ∧
    (append_lease m ip mac hostname presp).2.all (fun r => r.meth == "POST") = true ∧
    (update_lease m name ip2 mac2 host2 uresp).2.all (fun r => r.meth == "PUT") = true := by
  refine ⟨?_, ?_, ?_⟩
  · unfold delete_lease
    split
    · exact Or.inl rfl
    · cases fetchResp with
      | none => exact Or.inr rfl
      | some items =>
        dsimp
        cases (items.find? (lease_matches identifier idType)).bind
            (fun item => itemGet? item "id") with
        | none => exact Or.inr rfl
        | some lid =>
          dsimp
          split
          · exact Or.inr rfl
          · exact Or.inr rfl
  · unfold append_lease
    split
    · rfl
    · split
      · rfl
      · rfl
  · unfold update_lease
    split
    · rfl
    · rfl

/-- C3 (counterexample): a fetched collection holding a single record of a
non-DHCP allocation kind (alloc_type USER_RESERVED) still yields one
projected record, and the projected record retains that allocation-kind
field — `list_leases` performs no allocation-kind filtering, contrary to
the claim. -/
theorem C3_counterexample :
    ((list_leases ⟨"http://maas.local:5240", "a:b:c"⟩
        (some [[("id", "7"), ("alloc_type", "USER_RESERVED")]]) "table").1.length = 1) ∧
    (("alloc_type", "USER_RESERVED") ∈
      (list_leases ⟨"http://maas.local:5240", "a:b:c"⟩
        (some [[("id", "7"), ("alloc_type", "USER_RESERVED")]]) "table").1.headD []) := by
  decide

/-- C3 (amended): with configured credentials, `list_leases` projects every
record of the fetched collection into the lease-record shape with no
filtering of any allocation kind: the result is exactly the projection of
each raw record, one projected record per fetched record. -/
theorem C3_enumerate_projects_every_record
    (m : Manager) (items : List (List (String × String))) (fmt : String)
    (hu : m.maas_url ≠ "") (hk : m.api_key ≠ "") :
    (list_leases m (some items) fmt).1 = items.map projectLease ∧
    (list_leases m (some items) fmt).1.length = items.length := by
  have h : (list_leases m (some items) fmt).1 = items.map projectLease := by
    simp [list_leases, hu, hk]
  exact ⟨h, by rw [h, List.length_map]⟩

/-- C3 (witness): the amended statement instantiated at a one-record
collection with configured credentials. -/
theorem C3_witness :
    ("http://x" ≠ "") ∧ ("a:b:c" ≠ "") ∧
    ((list_leases ⟨"http://x", "a:b:c"⟩ (some [[("id", "7")]]) "json").1 =
        [[("id", "7")]].map projectLease ∧
      (list_leases ⟨"http://x", "a:b:c"⟩ (some [[("id", "7")]]) "json").1.length =
        ([[("id", "7")]] : List (List (String × String))).length) :=
  ⟨by decide, by decide,
    C3_enumerate_projects_every_record ⟨"http://x", "a:b:c"⟩ [[("id", "7")]] "json"
      (by decide) (by decide)⟩

/-- C4: a CSV header lacking a required column (ip or mac in append mode;
lease_name, ip or mac in update mode) makes the batch operation report
failure immediately: the result is a failed batch with zero counts, no
issued HTTP request and no summary line — no row is processed. -/
theorem C4_missing_required_column_rejects_batch (m : Manager)
    (f1 f2 : List String) (rows1 rows2 : List (CsvRow × Option Bool))
    (h1 : "ip" ∉ f1 ∨ "mac" ∉ f1)
    (h2 : "lease_name" ∉ f2 ∨ "ip" ∉ f2 ∨ "mac" ∉ f2) :
    append_from_csv m true f1 rows1 = ⟨false, 0, 0, [], none⟩ ∧
    update_from_csv m true f2 rows2 = ⟨false, 0, 0, [], none⟩ := by
  constructor
  · have hall : (["ip", "mac"].all fun c => f1.contains c) = false := by
      simp
      tauto
    simp only [append_from_csv, hall, Bool.not_false, if_true]
    rfl
  · have hall : (["lease_name", "ip", "mac"].all fun c => f2.contains c) = false := by
      simp
      tauto
    simp only [update_from_csv, hall, Bool.not_false, if_true]
    rfl

/-- C4 (witness): the batch rejections instantiated at headers missing mac
resp. lease_name. -/
theorem C4_witness :
    (("ip" : String) ∉ (["ip"] : List String) ∨ ("mac" : String) ∉ (["ip"] : List String)) ∧
    (("lease_name" : String) ∉ (["ip", "mac"] : List String) ∨
      ("ip" : String) ∉ (["ip", "mac"] : List String) ∨
      ("mac" : String) ∉ (["ip", "mac"] : List String)) ∧
    (append_from_csv ⟨"http://x", "a:b:c"⟩ true ["ip"] [] = ⟨false, 0, 0, [], none⟩ ∧
      update_from_csv ⟨"http://x", "a:b:c"⟩ true ["ip", "mac"] [] =
        ⟨false, 0, 0, [], none⟩) :=
  ⟨by decide, by decide,
    C4_missing_required_column_rejects_batch ⟨"http://x", "a:b:c"⟩ ["ip"] ["ip", "mac"]
      [] [] (by decide) (by decide)⟩

/-- C5: in append mode a row whose stripped ip or mac is empty is skipped —
it contributes one failure, issues nothing, and the remaining rows are
processed exactly as without it; and on the two-row scenario (first row
ip 10.0.0.5, mac aa:bb:cc:dd:ee:ff, hostname node1 with a successful
reserve call, second row ip 10.0.0.6 and empty mac) the batch counts one
success and one failure and prints the aggregate completion message with
those counts. -/
theorem C5_bad_row_counted_failed_and_rest_processed :
    (∀ (m : Manager) (row : CsvRow) (resp : Option Bool)
        (rest : List (CsvRow × Option Bool)),
      rowField row "ip" = "" ∨ rowField row "mac" = "" →
      processAppendRows m ((row, resp) :: rest) =
        ((processAppendRows m rest).1, (processAppendRows m rest).2.1 + 1,
          (processAppendRows m rest).2.2)) ∧
    append_from_csv ⟨"http://maas.local:5240", "a:b:c"⟩ true ["ip", "mac", "hostname"]
      [([("ip", "10.0.0.5"), ("mac", "aa:bb:cc:dd:ee:ff"), ("hostname", "node1")], some true),
       ([("ip", "10.0.0.6"), ("mac", ""), ("hostname", "")], none)] =
      ⟨true, 1, 1, [⟨"POST", "http://maas.local:5240/MAAS/api/2.0/dhcp-snippets/"⟩],
        some "\nCompleted: 1 leases added, 1 failed"⟩ := by
  constructor
  · intro m row resp rest h
    rcases hE : processAppendRows m rest with ⟨s, f, tr⟩
    rw [processAppendRows, hE]
    rcases h with h | h <;> simp [h]
  · decide

/-- C5 (witness): the skip property instantiated at a one-row batch whose
row has no ip column. -/
theorem C5_witness :
    (rowField [("mac", "aa")] "ip" = "" ∨ rowField [("mac", "aa")] "mac" = "") ∧
    processAppendRows ⟨"http://x", "a:b:c"⟩ [([("mac", "aa")], none)] =
      ((processAppendRows ⟨"http://x", "a:b:c"⟩ []).1,
        (processAppendRows ⟨"http://x", "a:b:c"⟩ []).2.1 + 1,
        (processAppendRows ⟨"http://x", "a:b:c"⟩ []).2.2) :=
  ⟨Or.inl (by decide),
    C5_bad_row_counted_failed_and_rest_processed.1 ⟨"http://x", "a:b:c"⟩
      [("mac", "aa")] none [] (Or.inl (by decide))⟩

/-- C6: when credentials are configured and the fetched collection holds no
record matching the identifier (exact on the ip field for kind ip,
case-insensitive on the mac field for kind mac), `delete_lease` reports
the not-found diagnostic, returns failure, and its trace is only the
listing GET — no DELETE request is issued. -/
theorem C6_release_without_match_issues_no_delete
    (m : Manager) (identifier idType : String)
    (items : List (List (String × String))) (dresp : Option Unit)
    (hu : m.maas_url ≠ "") (hk : m.api_key ≠ "")
    (hnone : ∀ item ∈ items, lease_matches identifier idType item = false) :
    delete_lease m identifier idType (some items) dresp =
      ⟨false, [listingGet m], some ("Lease not found for " ++ identifier)⟩ := by
  have hfind : items.find? (lease_matches identifier idType) = none := by
    rw [List.find?_eq_none]
    intro x hx
    simp [hnone x hx]
  simp [delete_lease, hu, hk, hfind]

/-- C6 (witness): the not-found behaviour instantiated at identifier
10.0.0.5 against a one-record collection holding only 10.0.0.7. -/
theorem C6_witness :
    ("http://x" ≠ "") ∧ ("a:b:c" ≠ "") ∧
    (∀ item ∈ ([[("ip", "10.0.0.7")]] : List (List (String × String))),
      lease_matches "10.0.0.5" "ip" item = false) ∧
    delete_lease ⟨"http://x", "a:b:c"⟩ "10.0.0.5" "ip" (some [[("ip", "10.0.0.7")]]) none =
      ⟨false, [listingGet ⟨"http://x", "a:b:c"⟩],
        some ("Lease not found for " ++ "10.0.0.5")⟩ :=
  ⟨by decide, by decide, by decide,
    C6_release_without_match_issues_no_delete ⟨"http://x", "a:b:c"⟩ "10.0.0.5" "ip"
      [[("ip", "10.0.0.7")]] none (by decide) (by decide) (by decide)⟩

/-- C7: the lease list returned by `list_leases` is a deterministic
function of the fetched response alone — two invocations against the same
response (even with different output formats, which only affect printing)
return the same projected lease list. -/
theorem C7_enumerate_deterministic (m : Manager)
    (resp : Option (List (List (String × String)))) (f1 f2 : String) :
    (list_leases m resp f1).1 = (list_leases m resp f2).1 := rfl

/-- C8 (counterexample): with no command-line flag and an environment
variable set, the priority chain of the spec resolves to the environment
value, but the code resolves to the built-in placeholder constant — the
script never consults environment variables or a config file. -/
theorem C8_counterexample :
    resolve_spec_chain none (some "http://envhost:5240") none MAAS_URL =
      "http://envhost:5240" ∧
    resolve_maas_url none = MAAS_URL ∧
    MAAS_URL ≠ "http://envhost:5240" := by
  refine ⟨rfl, rfl, ?_⟩
  decide

/-- C8 (amended): the base URL and API key are resolved by the degenerate
chain command-line flag (when truthy) > built-in placeholder constant:
the code coincides with the documented priority chain only when the
environment-variable and config-file sources are absent. -/
theorem C8_resolution_is_flag_then_builtin_default (flag : Option String) :
    resolve_maas_url flag = resolve_spec_chain flag none none MAAS_URL ∧
    resolve_api_key flag = resolve_spec_chain flag none none MAAS_API_KEY := by
  cases flag with
  | none => exact ⟨rfl, rfl⟩
  | some s =>
    by_cases hs : s = "" <;>
      simp [resolve_maas_url, resolve_api_key, resolve_spec_chain, pyFalsy, hs]

/-- C9: a failed fetch (non-success status or transport error) makes
`list_leases` return the empty list, the very value returned for a
successful fetch of an empty collection — the caller cannot tell the two
apart from the return value. -/
theorem C9_failure_returns_empty_like_empty_collection (m : Manager) (fmt : String) :
    (list_leases m none fmt).1 = [] ∧
    (list_leases m (some []) fmt).1 = [] := by
  constructor <;> (unfold list_leases; dsimp only; split <;> rfl)

/-- C10: each batch operation returns success exactly when at least one row
succeeded — an all-failing batch (or a rejected file) returns failure, and
one success suffices for a true return regardless of other failures. -/
theorem C10_batch_ok_iff_some_row_succeeded (m : Manager) (fe1 fe2 : Bool)
    (f1 f2 : List String) (rows1 rows2 : List (CsvRow × Option Bool)) :
    ((append_from_csv m fe1 f1 rows1).ok = true ↔
      0 < (append_from_csv m fe1 f1 rows1).successCount) ∧
    ((update_from_csv m fe2 f2 rows2).ok = true ↔
      0 < (update_from_csv m fe2 f2 rows2).successCount) := by
  constructor
  · unfold append_from_csv
    split
    · simp
    · split
      · simp
      · rcases h : processAppendRows m rows1 with ⟨s, f, tr⟩
        simp
  · unfold update_from_csv
    split
    · simp
    · split
      · simp
      · rcases h : processUpdateRows m rows2 with ⟨s, f, tr⟩
        simp

end MaasDhcp
